import Mathlib

/-!
Verification of the reconciliation core of a provider that shells out to an
external provisioning tool.  The embedding follows the source file that
defines ApplyResourceModel, its ID method, doApply and the four lifecycle
verbs Create, Read, Update, Delete.

Modelling decisions, all taken from the source:

* Machine words of the hash are natural numbers reduced modulo 2^32.
* The identity function of the model (Go method ID) opens the file
  terraform.tfstate inside the working directory, streams its bytes through
  SHA-256 and renders the digest in lowercase hexadecimal; it returns the
  pair (identity, error) exactly as the Go pair (string, error): the empty
  string together with a message on failure.
* The filesystem is a finite association list from paths to file data; a
  file either has byte content or fails when read, mirroring the two error
  paths of the Go method (open fails, io.Copy fails).
* External command execution is an oracle of type Exec: it receives the
  current filesystem, the working directory and the argument vector, and
  returns the possibly updated filesystem together with the captured
  combined output and an optional error, mirroring cmd.Run with shared
  stdout and stderr buffers.  Every invocation the code performs is recorded
  in a trace, so that claims about which commands run are statements about
  that trace.
* The plan and state decoding steps (req.Plan.Get, req.State.Get,
  data.Args.ElementsAs) are assumed to succeed: the model receives the
  decoded record directly.  Those steps only fail on malformed or unknown
  values produced by the host, which the claims do not touch.
-/

namespace Pteraform

/-! ## SHA-256, the digest used by the Go method ID (crypto/sha256) -/

/-- The modulus of a 32-bit word. -/
def w32 : Nat := 4294967296

/-- Addition of 32-bit words. -/
def add32 (a b : Nat) : Nat := (a + b) % w32

/-- Bitwise complement inside 32 bits. -/
def not32 (a : Nat) : Nat := a ^^^ 4294967295

/-- Right rotation of a 32-bit word by k positions. -/
def rotr32 (k a : Nat) : Nat := ((a >>> k) ||| (a <<< (32 - k))) % w32

/-- The choice function of the SHA-256 round. -/
def ch32 (e f g : Nat) : Nat := (e &&& f) ^^^ (not32 e &&& g)

/-- The majority function of the SHA-256 round. -/
def maj32 (a b c : Nat) : Nat := (a &&& b) ^^^ (a &&& c) ^^^ (b &&& c)

/-- The big sigma-0 function of the SHA-256 round. -/
def bigSigma0 (a : Nat) : Nat := rotr32 2 a ^^^ rotr32 13 a ^^^ rotr32 22 a

/-- The big sigma-1 function of the SHA-256 round. -/
def bigSigma1 (e : Nat) : Nat := rotr32 6 e ^^^ rotr32 11 e ^^^ rotr32 25 e

/-- The small sigma-0 function of the message schedule. -/
def smallSigma0 (x : Nat) : Nat := rotr32 7 x ^^^ rotr32 18 x ^^^ (x >>> 3)

/-- The small sigma-1 function of the message schedule. -/
def smallSigma1 (x : Nat) : Nat := rotr32 17 x ^^^ rotr32 19 x ^^^ (x >>> 10)

/-- The 64 round constants of SHA-256, written in decimal. -/
def K256 : List Nat :=
  [1116352408, 1899447441, 3049323471, 3921009573,
   961987163, 1508970993, 2453635748, 2870763221,
   3624381080, 310598401, 607225278, 1426881987,
   1925078388, 2162078206, 2614888103, 3248222580,
   3835390401, 4022224774, 264347078, 604807628,
   770255983, 1249150122, 1555081692, 1996064986,
   2554220882, 2821834349, 2952996808, 3210313671,
   3336571891, 3584528711, 113926993, 338241895,
   666307205, 773529912, 1294757372, 1396182291,
   1695183700, 1986661051, 2177026350, 2456956037,
   2730485921, 2820302411, 3259730800, 3345764771,
   3516065817, 3600352804, 4094571909, 275423344,
   430227734, 506948616, 659060556, 883997877,
   958139571, 1322822218, 1537002063, 1747873779,
   1955562222, 2024104815, 2227730452, 2361852424,
   2428436474, 2756734187, 3204031479, 3329325298]

/-- The eight working registers of the compression function. -/
structure Regs where
  a : Nat
  b : Nat
  c : Nat
  d : Nat
  e : Nat
  f : Nat
  g : Nat
  h : Nat
deriving Repr, DecidableEq

/-- The initial hash value of SHA-256, written in decimal. -/
def initRegs : Regs :=
  ⟨1779033703, 3144134277, 1013904242, 2773480762,
   1359893119, 2600822924, 528734635, 1541459225⟩

/-- One round of the compression function, consuming one constant and one
schedule word. -/
def round256 (s : Regs) (kw : Nat × Nat) : Regs :=
  let t1 := (s.h + bigSigma1 s.e + ch32 s.e s.f s.g + kw.1 + kw.2) % w32
  let t2 := (bigSigma0 s.a + maj32 s.a s.b s.c) % w32
  ⟨(t1 + t2) % w32, s.a, s.b, s.c, (s.d + t1) % w32, s.e, s.f, s.g⟩

/-- Big-endian assembly of bytes into 32-bit words, four bytes per word. -/
def toWords : List Nat → List Nat
  | b0 :: b1 :: b2 :: b3 :: rest =>
      (((b0 % 256) <<< 24) ||| ((b1 % 256) <<< 16) ||| ((b2 % 256) <<< 8) ||| (b3 % 256)) :: toWords rest
  | _ => []

/-- Message schedule extension: the accumulator holds the schedule so far in
reverse, newest word first, and each step prepends one new word. -/
def extendLoop : Nat → List Nat → List Nat
  | 0, acc => acc
  | n + 1, acc =>
      let next := (smallSigma1 (acc.getD 1 0) + acc.getD 6 0
                   + smallSigma0 (acc.getD 14 0) + acc.getD 15 0) % w32
      extendLoop n (next :: acc)

/-- The 64-word message schedule of one 64-byte block. -/
def schedule (block : List Nat) : List Nat :=
  (extendLoop 48 (toWords block).reverse).reverse

/-- Compression of one 64-byte block into the running hash value. -/
def compress (hs : Regs) (block : List Nat) : Regs :=
  let s := (K256.zip (schedule block)).foldl round256 hs
  ⟨add32 hs.a s.a, add32 hs.b s.b, add32 hs.c s.c, add32 hs.d s.d,
   add32 hs.e s.e, add32 hs.f s.f, add32 hs.g s.g, add32 hs.h s.h⟩

/-- The eight bytes of a 64-bit big-endian length field. -/
def lenBytes (n : Nat) : List Nat :=
  [(n >>> 56) % 256, (n >>> 48) % 256, (n >>> 40) % 256, (n >>> 32) % 256,
   (n >>> 24) % 256, (n >>> 16) % 256, (n >>> 8) % 256, n % 256]

/-- SHA-256 padding: one 0x80 byte, zeros up to 56 modulo 64, then the bit
length of the message as a 64-bit big-endian integer. -/
def pad (msg : List Nat) : List Nat :=
  msg ++ [0x80] ++ List.replicate ((119 - msg.length % 64) % 64) 0 ++ lenBytes (8 * msg.length)

/-- Block-by-block processing of a byte list; the fuel argument bounds the
number of blocks and makes the recursion structural. -/
def processAux : Nat → List Nat → Regs → Regs
  | 0, _, hs => hs
  | _ + 1, [], hs => hs
  | fuel + 1, bytes, hs => processAux fuel (bytes.drop 64) (compress hs (bytes.take 64))

/-- The four big-endian bytes of one 32-bit word. -/
def word4 (w : Nat) : List Nat :=
  [(w >>> 24) % 256, (w >>> 16) % 256, (w >>> 8) % 256, w % 256]

/-- The 32 digest bytes of a final hash value. -/
def regsBytes (s : Regs) : List Nat :=
  word4 s.a ++ word4 s.b ++ word4 s.c ++ word4 s.d
    ++ word4 s.e ++ word4 s.f ++ word4 s.g ++ word4 s.h

/-- The SHA-256 digest of a byte list, as 32 bytes. -/
def sha256 (msg : List Nat) : List Nat :=
  regsBytes (processAux (pad msg).length (pad msg) initRegs)

/-! ## Lowercase hexadecimal rendering, the Go format verb x applied to the
digest bytes -/

/-- One lowercase hexadecimal digit for a value below 16. -/
def hexDigit (n : Nat) : Char :=
  if n < 10 then Char.ofNat (48 + n) else Char.ofNat (87 + n)

/-- Two lowercase hexadecimal digits per byte, over a whole byte list. -/
def hexDigits (bs : List Nat) : List Char :=
  bs.flatMap fun b => [hexDigit (b / 16 % 16), hexDigit (b % 16)]

/-- The lowercase hexadecimal string of a byte list. -/
def hexOfBytes (bs : List Nat) : String :=
  String.mk (hexDigits bs)

/-! ## Filesystem and external command model -/

/-- The data behind a path: either readable byte content, or a file present
whose read fails with a message; this mirrors the two Go error paths, the
open call failing and the io.Copy call failing. -/
inductive FileData where
  | content (bytes : List Nat)
  | readFailure (msg : String)
deriving Repr, DecidableEq

/-- A finite filesystem: an association list from paths to file data. -/
abbrev Fs : Type := List (String × FileData)

/-- Path lookup in the filesystem; none means the open call fails with a
not-found error. -/
def findFile : Fs → String → Option FileData
  | [], _ => none
  | (p, d) :: rest, q => if p = q then some d else findFile rest q

/-- The result of one external command: the combined captured stdout and
stderr, and the error of cmd.Run when the command failed. -/
structure CmdResult where
  err : Option String
  output : String
deriving Repr, DecidableEq

/-- The external command oracle: given the current filesystem, a working
directory and an argument vector, it returns the possibly updated
filesystem and the command result.  The external provisioning tool is a
collaborator, so its behavior is universally quantified in the theorems. -/
abbrev Exec : Type := Fs → String → List String → Fs × CmdResult

/-- One recorded external invocation: working directory and argument
vector, exactly as handed to exec.CommandContext. -/
structure Invocation where
  dir : String
  argv : List String
deriving Repr, DecidableEq

/-! ## The resource data model and the ID method -/

/-- The resource data model: working directory, argument list and computed
identifier, following the Go struct with fields WorkingDir, Args, Id. -/
structure ApplyResourceModel where
  workingDir : String
  args : List String
  id : String
deriving Repr, DecidableEq

/-- The path of the state artifact inside the working directory, the Go
expression filepath.Join of the working directory and terraform.tfstate. -/
def tfstatePath (dir : String) : String := dir ++ "/terraform.tfstate"

/-- The message the operating system open call produces when the artifact
file does not exist. -/
def osOpenErr (path : String) : String :=
  "open " ++ path ++ ": no such file or directory"

/-- The ID method of the model: open terraform.tfstate inside the working
directory, hash the full byte content with SHA-256 and render the digest in
lowercase hexadecimal.  Returns the pair (identity, error) exactly as the
Go pair (string, error): the empty string with a message on either failure
path. -/
def ApplyResourceModel.ID (fs : Fs) (m : ApplyResourceModel) : String × Option String :=
  match findFile fs (tfstatePath m.workingDir) with
  | none =>
      ("", some ("Unable to open terraform.tfstate, got error: "
                 ++ osOpenErr (tfstatePath m.workingDir)))
  | some (.readFailure e) =>
      ("", some ("Unable to read terraform.tfstate, got error: " ++ e))
  | some (.content bytes) =>
      (hexOfBytes (sha256 bytes), none)

/-! ## The provisioning cycle: doApply -/

/-- The outcome of one provisioning cycle: the filesystem after the
external commands ran, the trace of the invocations that were made, and
the error result of the cycle. -/
structure DoApplyResult where
  fs : Fs
  trace : List Invocation
  result : Except String Unit
deriving Repr

/-- The provisioning cycle of the resource: run the init command in the
working directory; if it fails, stop with a failure naming the init phase
and carrying its captured output; otherwise run the apply command with the
fixed flags followed by the caller supplied arguments, and map a failed
apply likewise.  Each external invocation is recorded in the trace. -/
def doApply (exec : Exec) (fs : Fs) (data : ApplyResourceModel) : DoApplyResult :=
  let r1 := exec fs data.workingDir ["init"]
  match r1.2.err with
  | some e =>
      { fs := r1.1
        trace := [⟨data.workingDir, ["init"]⟩]
        result := .error ("terraform init failed, got error: " ++ e
                          ++ ", output: " ++ r1.2.output) }
  | none =>
      let argv := ["apply", "-auto-approve"] ++ data.args
      let r2 := exec r1.1 data.workingDir argv
      match r2.2.err with
      | some e =>
          { fs := r2.1
            trace := [⟨data.workingDir, ["init"]⟩, ⟨data.workingDir, argv⟩]
            result := .error ("terraform apply failed, got error: " ++ e
                              ++ ", output: " ++ r2.2.output) }
      | none =>
          { fs := r2.1
            trace := [⟨data.workingDir, ["init"]⟩, ⟨data.workingDir, argv⟩]
            result := .ok () }

/-! ## The lifecycle verbs -/

/-- A diagnostic as produced by AddError: summary and detail. -/
structure Diagnostic where
  summary : String
  detail : String
deriving Repr, DecidableEq

/-- The outcome of a lifecycle verb: filesystem after the call, trace of
external invocations, accumulated diagnostics, and the record written back
through State.Set. -/
structure VerbResult where
  fs : Fs
  trace : List Invocation
  diagnostics : List Diagnostic
  state : ApplyResourceModel
deriving Repr

/-- The Create verb of the source: run the provisioning cycle, add a
diagnostic when it failed, then resolve the identity, add a diagnostic when
that failed, store the returned identity string into the record and set
the state.  Note that the source adds the diagnostics but keeps going:
identity resolution runs and the record is stored even after a failed
cycle. -/
def Create (exec : Exec) (fs : Fs) (plan : ApplyResourceModel) : VerbResult :=
  let r := doApply exec fs plan
  let d1 := match r.result with
    | .error e => [⟨"Client Error", "Unable to run terraform apply, got error: " ++ e⟩]
    | .ok _ => []
  let idPair := plan.ID r.fs
  let d2 := match idPair.2 with
    | some e => [⟨"Client Error", "Unable to get ID, got error: " ++ e⟩]
    | none => []
  { fs := r.fs
    trace := r.trace
    diagnostics := d1 ++ d2
    state := { plan with id := idPair.1 } }

/-- The Read verb of the source: resolve the identity from the artifact on
disk, add a diagnostic when resolution failed, store the returned identity
into the record and set the state.  The body contains no external command
invocation, so the filesystem is returned unchanged and the trace is
empty. -/
def Read (fs : Fs) (state : ApplyResourceModel) : VerbResult :=
  let idPair := state.ID fs
  let d := match idPair.2 with
    | some e => [⟨"Client Error", "Unable to get ID, got error: " ++ e⟩]
    | none => []
  { fs := fs
    trace := []
    diagnostics := d
    state := { state with id := idPair.1 } }

/-- The request of the Update verb: the desired plan and the prior record;
the source body reads only the plan. -/
structure UpdateRequest where
  plan : ApplyResourceModel
  priorState : ApplyResourceModel
deriving Repr

/-- The Update verb of the source: its body is textually identical to
Create, applied to the plan of the request; the prior record is never
consulted. -/
def Update (exec : Exec) (fs : Fs) (req : UpdateRequest) : VerbResult :=
  let r := doApply exec fs req.plan
  let d1 := match r.result with
    | .error e => [⟨"Client Error", "Unable to run terraform apply, got error: " ++ e⟩]
    | .ok _ => []
  let idPair := req.plan.ID r.fs
  let d2 := match idPair.2 with
    | some e => [⟨"Client Error", "Unable to get ID, got error: " ++ e⟩]
    | none => []
  { fs := r.fs
    trace := r.trace
    diagnostics := d1 ++ d2
    state := { req.plan with id := idPair.1 } }

/-- The Delete verb of the source: the body decodes the stored record and
does nothing else — no external command, no filesystem change, no
diagnostics. -/
def Delete (fs : Fs) (state : ApplyResourceModel) : Fs × List Invocation × List Diagnostic :=
  (fs, [], [])

/-! ## Concrete inputs used by witnesses and counterexamples -/

/-- An execution oracle whose every command fails with exit status one and
output saying the init step exploded, leaving the filesystem unchanged. -/
def execInitFails : Exec := fun fs _ _ => (fs, ⟨some "exit status 1", "init exploded"⟩)

/-- An execution oracle whose every command succeeds and leaves the
filesystem unchanged. -/
def execAllOk : Exec := fun fs _ _ => (fs, ⟨none, "Apply complete"⟩)

/-- A filesystem holding one state artifact under directory d with byte
content of the two characters h i. -/
def fsWithArtifact : Fs := [("d/terraform.tfstate", .content [104, 105])]

/-- A filesystem holding one state artifact under directory wd with three
bytes of content. -/
def fsSmall : Fs := [("wd/terraform.tfstate", .content [1, 2, 3])]

/-- A desired record pointing at directory d with no arguments. -/
def planD : ApplyResourceModel := ⟨"d", [], ""⟩

/-- A desired record pointing at directory wd with two variable
arguments. -/
def planWd : ApplyResourceModel := ⟨"wd", ["-var=a=1", "-var=b=2"], ""⟩

/-- A filesystem holding, under a different directory, an artifact with
the same three bytes of content as fsSmall. -/
def fsSmallCopy : Fs := [("other/terraform.tfstate", .content [1, 2, 3])]

/-- A desired record pointing at directory other with no arguments. -/
def planOther : ApplyResourceModel := ⟨"other", [], ""⟩

/-! ## Helper lemmas -/

/-- The sixteen lowercase hexadecimal digit characters. -/
def lowerHexChars : List Char :=
  "0123456789abcdef".toList

theorem hexDigit_mem_of_lt : ∀ n, n < 16 → hexDigit n ∈ lowerHexChars := by
  decide

theorem hexDigits_mem {bs : List Nat} {c : Char} (hc : c ∈ hexDigits bs) :
    c ∈ lowerHexChars := by
  induction bs with
  | nil => simp [hexDigits] at hc
  | cons b t ih =>
      simp only [hexDigits, List.flatMap_cons] at hc
      rcases List.mem_append.mp hc with hin | hin
      · rcases List.mem_cons.mp hin with h1 | h1
        · exact h1 ▸ hexDigit_mem_of_lt _ (Nat.mod_lt _ (by decide))
        · rcases List.mem_cons.mp h1 with h2 | h2
          · exact h2 ▸ hexDigit_mem_of_lt _ (Nat.mod_lt _ (by decide))
          · simp at h2
      · exact ih hin

theorem hexDigits_length (bs : List Nat) : (hexDigits bs).length = 2 * bs.length := by
  induction bs with
  | nil => rfl
  | cons b t ih =>
      have hstep : hexDigits (b :: t)
          = hexDigit (b / 16 % 16) :: hexDigit (b % 16) :: hexDigits t := by
        simp [hexDigits]
      rw [hstep, List.length_cons, List.length_cons, ih, List.length_cons]
      ring

theorem hexOfBytes_length (bs : List Nat) : (hexOfBytes bs).length = 2 * bs.length := by
  simpa [hexOfBytes] using hexDigits_length bs

theorem regsBytes_length (s : Regs) : (regsBytes s).length = 32 := by
  simp [regsBytes, word4]

theorem sha256_length (msg : List Nat) : (sha256 msg).length = 32 :=
  regsBytes_length _

theorem sha256_hex_length (msg : List Nat) : (hexOfBytes (sha256 msg)).length = 64 := by
  rw [hexOfBytes_length, sha256_length]

theorem sha256_hex_ne_empty (msg : List Nat) : hexOfBytes (sha256 msg) ≠ "" := by
  intro h
  have := sha256_hex_length msg
  rw [h] at this
  simp at this

/-- The ID method reads nothing of the record except the working
directory. -/
theorem ID_congr (fs : Fs) {m m' : ApplyResourceModel}
    (h : m.workingDir = m'.workingDir) : m.ID fs = m'.ID fs := by
  simp [ApplyResourceModel.ID, h]

/-- Whenever the ID method reports an error, the identity component of its
returned pair is the empty string. -/
theorem ID_error_fst_empty (fs : Fs) (m : ApplyResourceModel)
    (h : (m.ID fs).2 ≠ none) : (m.ID fs).1 = "" := by
  cases hf : findFile fs (tfstatePath m.workingDir) with
  | none => simp [ApplyResourceModel.ID, hf]
  | some d =>
      cases d with
      | content bytes =>
          exfalso
          apply h
          simp [ApplyResourceModel.ID, hf]
      | readFailure e => simp [ApplyResourceModel.ID, hf]

/-! ## Claim theorems -/

/-- Claim C2: when the init command of a provisioning cycle fails, the
whole cycle result is the failure of that phase, the trace holds only the
init invocation, so the apply command is never invoked, and the failure
message names the init phase and carries its captured output verbatim. -/
theorem init_failure_gates_apply (exec : Exec) (fs : Fs) (data : ApplyResourceModel)
    (e out : String)
    (hfail : (exec fs data.workingDir ["init"]).2 = ⟨some e, out⟩) :
    doApply exec fs data =
      ⟨(exec fs data.workingDir ["init"]).1,
       [⟨data.workingDir, ["init"]⟩],
       .error ("terraform init failed, got error: " ++ e ++ ", output: " ++ out)⟩ := by
  simp [doApply, hfail]

/-- Witness for claim C2 at a concrete oracle and record. -/
theorem init_failure_gates_apply_witness :
    (execInitFails [] planWd.workingDir ["init"]).2
        = (⟨some "exit status 1", "init exploded"⟩ : CmdResult)
    ∧ doApply execInitFails [] planWd =
      ⟨(execInitFails [] planWd.workingDir ["init"]).1,
       [⟨planWd.workingDir, ["init"]⟩],
       .error ("terraform init failed, got error: " ++ "exit status 1"
               ++ ", output: " ++ "init exploded")⟩ :=
  ⟨rfl, init_failure_gates_apply execInitFails [] planWd "exit status 1" "init exploded" rfl⟩

/-- Claim C3: when the state artifact is absent from the working
directory, identity resolution returns the not-found open failure together
with the empty identity, its error is never none, and a bare Read surfaces
the failure as a diagnostic rather than treating the empty identity as
success. -/
theorem missing_artifact_is_error (fs : Fs) (m : ApplyResourceModel)
    (hmiss : findFile fs (tfstatePath m.workingDir) = none) :
    m.ID fs = ("", some ("Unable to open terraform.tfstate, got error: "
                          ++ osOpenErr (tfstatePath m.workingDir)))
    ∧ (m.ID fs).2 ≠ none
    ∧ (Read fs m).diagnostics ≠ [] := by
  refine ⟨?_, ?_, ?_⟩ <;>
    simp [ApplyResourceModel.ID, Read, hmiss]

/-- Witness for claim C3 on the empty filesystem. -/
theorem missing_artifact_is_error_witness :
    findFile [] (tfstatePath planD.workingDir) = none
    ∧ (planD.ID [] = ("", some ("Unable to open terraform.tfstate, got error: "
                                 ++ osOpenErr (tfstatePath planD.workingDir)))
       ∧ (planD.ID []).2 ≠ none
       ∧ (Read [] planD).diagnostics ≠ []) :=
  ⟨rfl, missing_artifact_is_error [] planD rfl⟩

/-- Claim C4: when the state artifact holds a given byte sequence, the
resolved identity is exactly the SHA-256 digest of those bytes rendered in
lowercase hexadecimal: sixty-four characters, all lowercase hexadecimal
digits, depending on nothing but the byte content. -/
theorem id_is_lowercase_sha256_hex (fs : Fs) (m : ApplyResourceModel) (bytes : List Nat)
    (hfind : findFile fs (tfstatePath m.workingDir) = some (.content bytes)) :
    m.ID fs = (hexOfBytes (sha256 bytes), none)
    ∧ (hexOfBytes (sha256 bytes)).length = 64
    ∧ ∀ c ∈ hexDigits (sha256 bytes), c ∈ lowerHexChars :=
  ⟨by simp [ApplyResourceModel.ID, hfind],
   sha256_hex_length _,
   fun _ hc => hexDigits_mem hc⟩

/-- Witness for claim C4 at a concrete three-byte artifact. -/
theorem id_is_lowercase_sha256_hex_witness :
    findFile fsSmall (tfstatePath planWd.workingDir) = some (.content [1, 2, 3])
    ∧ (planWd.ID fsSmall = (hexOfBytes (sha256 [1, 2, 3]), none)
       ∧ (hexOfBytes (sha256 [1, 2, 3])).length = 64
       ∧ ∀ c ∈ hexDigits (sha256 [1, 2, 3]), c ∈ lowerHexChars) :=
  ⟨by decide, id_is_lowercase_sha256_hex fsSmall planWd [1, 2, 3] (by decide)⟩

/-- Claim C6: when the init command succeeds, the apply command receives
the fixed flags followed by the argument list supplied by the caller,
verbatim and in order, and those are the only two invocations of the
cycle. -/
theorem apply_args_passed_verbatim (exec : Exec) (fs : Fs) (data : ApplyResourceModel)
    (hinit : (exec fs data.workingDir ["init"]).2.err = none) :
    (doApply exec fs data).trace =
      [⟨data.workingDir, ["init"]⟩,
       ⟨data.workingDir, ["apply", "-auto-approve"] ++ data.args⟩] := by
  simp only [doApply, hinit]
  cases h2 : (exec (exec fs data.workingDir ["init"]).1 data.workingDir
      (["apply", "-auto-approve"] ++ data.args)).2.err <;> simp [h2]

/-- Witness for claim C6 at a concrete oracle and a two-argument list. -/
theorem apply_args_passed_verbatim_witness :
    (execAllOk [] planWd.workingDir ["init"]).2.err = none
    ∧ (doApply execAllOk [] planWd).trace =
        [⟨planWd.workingDir, ["init"]⟩,
         ⟨planWd.workingDir, ["apply", "-auto-approve"] ++ planWd.args⟩] :=
  ⟨rfl, apply_args_passed_verbatim execAllOk [] planWd rfl⟩

/-- Claim C5: identity resolution is deterministic — when two filesystems
hold artifacts with the same byte content, resolution returns the same
result for both records — and two consecutive Read calls over an unchanged
filesystem produce the same record, so in particular the same identity. -/
theorem resolve_deterministic_and_read_idempotent :
    (∀ (fs fs' : Fs) (m m' : ApplyResourceModel) (bytes : List Nat),
       findFile fs (tfstatePath m.workingDir) = some (.content bytes) →
       findFile fs' (tfstatePath m'.workingDir) = some (.content bytes) →
       m.ID fs = m'.ID fs')
    ∧ (∀ (fs : Fs) (s : ApplyResourceModel),
       (Read fs (Read fs s).state).state = (Read fs s).state) := by
  constructor
  · intro fs fs' m m' bytes h h'
    simp [ApplyResourceModel.ID, h, h']
  · intro fs s
    rfl

/-- Witness for claim C5 at two concrete filesystems with the same
artifact bytes. -/
theorem resolve_deterministic_and_read_idempotent_witness :
    findFile fsSmall (tfstatePath planWd.workingDir) = some (.content [1, 2, 3])
    ∧ findFile fsSmallCopy (tfstatePath planOther.workingDir) = some (.content [1, 2, 3])
    ∧ planWd.ID fsSmall = planOther.ID fsSmallCopy
    ∧ (Read fsSmall (Read fsSmall planD).state).state = (Read fsSmall planD).state :=
  ⟨by decide, by decide,
   resolve_deterministic_and_read_idempotent.1 fsSmall fsSmallCopy planWd planOther
     [1, 2, 3] (by decide) (by decide),
   resolve_deterministic_and_read_idempotent.2 fsSmall planD⟩

/-- Claim C7: the Update verb behaves exactly as the Create verb applied
to the desired plan, and its outcome does not depend on the prior record
carried by the request, so no internal diffing against the prior record
takes place. -/
theorem update_behaves_as_create (exec : Exec) (fs : Fs) (req : UpdateRequest) :
    Update exec fs req = Create exec fs req.plan
    ∧ ∀ prior : ApplyResourceModel,
        Update exec fs ⟨req.plan, prior⟩ = Update exec fs req :=
  ⟨rfl, fun _ => rfl⟩

/-- Claim C8: the Read verb performs no external invocation, leaves the
filesystem unchanged, keeps the working directory and arguments of the
record, and refreshes only the identity field from the artifact currently
on disk. -/
theorem read_no_provisioning_frame (fs : Fs) (s : ApplyResourceModel) :
    (Read fs s).trace = []
    ∧ (Read fs s).fs = fs
    ∧ (Read fs s).state.workingDir = s.workingDir
    ∧ (Read fs s).state.args = s.args
    ∧ (Read fs s).state.id = (s.ID fs).1 :=
  ⟨rfl, rfl, rfl, rfl, rfl⟩

/-- Claim C9: the Delete verb invokes no external command, changes nothing
in the filesystem and emits no diagnostic. -/
theorem delete_is_noop (fs : Fs) (s : ApplyResourceModel) :
    Delete fs s = (fs, [], []) :=
  rfl

/-- Claim C10: whenever identity resolution reports an error its returned
identity string is exactly the empty string, and each lifecycle verb that
stores the identity after a failed resolution writes the empty string into
the id field of the record. -/
theorem failed_resolution_stores_empty_id :
    (∀ (fs : Fs) (m : ApplyResourceModel), (m.ID fs).2 ≠ none → (m.ID fs).1 = "")
    ∧ (∀ (fs : Fs) (s : ApplyResourceModel),
         (s.ID fs).2 ≠ none → (Read fs s).state.id = "")
    ∧ (∀ (exec : Exec) (fs : Fs) (plan : ApplyResourceModel),
         (plan.ID (doApply exec fs plan).fs).2 ≠ none →
         (Create exec fs plan).state.id = "")
    ∧ (∀ (exec : Exec) (fs : Fs) (req : UpdateRequest),
         (req.plan.ID (doApply exec fs req.plan).fs).2 ≠ none →
         (Update exec fs req).state.id = "") :=
  ⟨fun fs m h => ID_error_fst_empty fs m h,
   fun fs s h => ID_error_fst_empty fs s h,
   fun exec fs plan h => ID_error_fst_empty _ plan h,
   fun exec fs req h => ID_error_fst_empty _ req.plan h⟩

/-- Witness for claim C10 on filesystems without an artifact. -/
theorem failed_resolution_stores_empty_id_witness :
    (planD.ID []).2 ≠ none
    ∧ (planD.ID []).1 = ""
    ∧ (Read [] planD).state.id = ""
    ∧ (Create execAllOk [] planD).state.id = ""
    ∧ (Update execAllOk [] ⟨planD, planD⟩).state.id = "" :=
  ⟨by decide,
   failed_resolution_stores_empty_id.1 [] planD (by decide),
   failed_resolution_stores_empty_id.2.1 [] planD (by decide),
   failed_resolution_stores_empty_id.2.2.1 execAllOk [] planD (by decide),
   failed_resolution_stores_empty_id.2.2.2 execAllOk [] ⟨planD, planD⟩ (by decide)⟩

/-- Counterexample to claim C1: with an artifact already on disk and an
oracle whose init command fails, Create surfaces an error yet still stores
a valid, stale digest into the record, so a failed create does not abort
before an identity is stored and does not leave the record without a valid
identity. -/
theorem create_stores_stale_identity_on_failure :
    (Create execInitFails fsWithArtifact planD).diagnostics ≠ []
    ∧ (Create execInitFails fsWithArtifact planD).state.id
        = "8f434346648f6b96df89dda901c5176b10a6d83961dd3c1ac88b59b2dc327aa4"
    ∧ (Create execInitFails fsWithArtifact planD).state.id ≠ "" := by
  decide

/-- Claim C1 as amended: when the provisioning cycle of a Create call
fails, the call surfaces an error on the managed unit, but it does not
abort: identity resolution still runs against the filesystem left behind
by the failed cycle and its result — the empty string when resolution also
fails, the digest of the artifact on disk otherwise — is stored into the
record. -/
theorem create_failure_surfaces_error_but_stores_id (exec : Exec) (fs : Fs)
    (plan : ApplyResourceModel) (e : String)
    (hfail : (doApply exec fs plan).result = .error e) :
    (Create exec fs plan).diagnostics ≠ []
    ∧ (Create exec fs plan).state
        = { plan with id := (plan.ID (doApply exec fs plan).fs).1 } := by
  constructor
  · simp only [Create, hfail]
    cases h2 : (plan.ID (doApply exec fs plan).fs).2 <;> simp [h2]
  · rfl

/-- Witness for the amended claim C1 at a concrete failing oracle. -/
theorem create_failure_surfaces_error_but_stores_id_witness :
    (doApply execInitFails [] planD).result
        = .error ("terraform init failed, got error: " ++ "exit status 1"
                  ++ ", output: " ++ "init exploded")
    ∧ ((Create execInitFails [] planD).diagnostics ≠ []
       ∧ (Create execInitFails [] planD).state
           = { planD with id := (planD.ID (doApply execInitFails [] planD).fs).1 }) :=
  ⟨rfl,
   create_failure_surfaces_error_but_stores_id execInitFails [] planD
     ("terraform init failed, got error: " ++ "exit status 1"
      ++ ", output: " ++ "init exploded") rfl⟩

end Pteraform
